import Mathlib

/-!
Verification development for the ammonia-battery price-arbitrage optimiser
(`ammonia_battery/optimisation/engine.py` and the analysis modules it feeds).

The Pyomo abstract model of `create_optimization_model` is embedded shallowly:
a `ModelParams` record holds the bound parameters (the output of
`prepare_data`), a `Solution` record holds one assignment of the decision
variables, and each Pyomo constraint rule becomes a `Prop` over the two.
`acceptedSolution` is the conjunction of the variable domains/bounds and all
constraints: it holds exactly of the variable assignments the solver may
return.  Machine reals are modelled as rationals, so every equality the
solver enforces up to tolerance is exact here.
-/

/-- Parameters bound into a concrete model instance by `prepare_data`
(engine.py lines 87-111, 287-350).  The horizon index set DATETIME is
`0..T-1`; the five exogenous series are total functions read on `t < T`. -/
structure ModelParams where
  T : ℕ
  price : ℕ → ℚ
  demand : ℕ → ℚ
  wind : ℕ → ℚ
  curtailment : ℕ → ℚ
  carbonBasedFuels : ℕ → ℚ
  maxChargingPower : ℚ
  maxDischargingPower : ℚ
  minChargingThreshold : ℚ
  minDischargingThreshold : ℚ
  chargingEfficiency : ℚ
  dischargingEfficiency : ℚ
  timestep : ℚ
  lhvNH3 : ℚ
  nh3ConversionFactor : ℚ

/-- One assignment of the decision variables of the model
(engine.py lines 113-164). -/
structure Solution where
  optimalCapacity : ℚ
  optimalInitialLevel : ℚ
  chargingPower : ℕ → ℚ
  dischargingPower : ℕ → ℚ
  nh3Level : ℕ → ℚ
  isChargingOn : ℕ → ℚ
  isDischargingOn : ℕ → ℚ
  chargingStarted : ℕ → ℚ
  chargingStopped : ℕ → ℚ

/-- Ammonia produced in step `t`:
CHARGING_POWER[t] * CHARGING_EFFICIENCY * TIMESTEP * NH3_CONVERSION_FACTOR
(engine.py lines 211, 216). -/
def chargeIn (p : ModelParams) (s : Solution) (t : ℕ) : ℚ :=
  s.chargingPower t * p.chargingEfficiency * p.timestep * p.nh3ConversionFactor

/-- Ammonia consumed in step `t`:
DISCHARGING_POWER[t] * (1/DISCHARGING_EFFICIENCY) * TIMESTEP * NH3_CONVERSION_FACTOR
(engine.py lines 212, 217). -/
def dischargeOut (p : ModelParams) (s : Solution) (t : ℕ) : ℚ :=
  s.dischargingPower t * (1 / p.dischargingEfficiency) * p.timestep * p.nh3ConversionFactor

/-- Domains and declared bounds of the decision variables
(engine.py lines 113-164): capacity in NonNegativeReals with
bounds `(0, 100000)` written as literals; initial level, powers and the
inventory level nonnegative, powers bounded by the capacity parameters;
the four state-tracking variables binary. -/
def varDomains (p : ModelParams) (s : Solution) : Prop :=
  (0 ≤ s.optimalCapacity ∧ s.optimalCapacity ≤ 100000) ∧
  0 ≤ s.optimalInitialLevel ∧
  (∀ t, t < p.T → 0 ≤ s.chargingPower t ∧ s.chargingPower t ≤ p.maxChargingPower) ∧
  (∀ t, t < p.T → 0 ≤ s.dischargingPower t ∧ s.dischargingPower t ≤ p.maxDischargingPower) ∧
  (∀ t, t < p.T → 0 ≤ s.nh3Level t) ∧
  (∀ t, t < p.T → (s.isChargingOn t = 0 ∨ s.isChargingOn t = 1)) ∧
  (∀ t, t < p.T → (s.isDischargingOn t = 0 ∨ s.isDischargingOn t = 1)) ∧
  (∀ t, t < p.T → (s.chargingStarted t = 0 ∨ s.chargingStarted t = 1)) ∧
  (∀ t, t < p.T → (s.chargingStopped t = 0 ∨ s.chargingStopped t = 1))

/-- storage_capacity_constraint_rule (engine.py lines 184-192). -/
def storage_capacity_constraint (p : ModelParams) (s : Solution) : Prop :=
  ∀ t, t < p.T → s.nh3Level t ≤ s.optimalCapacity

/-- initial_storage_constraint_rule (engine.py lines 195-202). -/
def initial_storage_constraint (s : Solution) : Prop :=
  s.optimalInitialLevel ≤ s.optimalCapacity

/-- nh3_balance_rule (engine.py lines 205-223): with DATETIME = `0..T-1`
the first element of the index list is `0` and the predecessor of `t` in
the list is `t - 1`. -/
def nh3_balance_constraint (p : ModelParams) (s : Solution) : Prop :=
  ∀ t, t < p.T →
    if t = 0 then
      s.nh3Level t = s.optimalInitialLevel + chargeIn p s t - dischargeOut p s t
    else
      s.nh3Level t = s.nh3Level (t - 1) + chargeIn p s t - dischargeOut p s t

/-- cyclical_storage_constraint_rule (engine.py lines 226-234): the last
element of DATETIME = `0..T-1` is `T - 1`. -/
def cyclical_storage_constraint (p : ModelParams) (s : Solution) : Prop :=
  s.nh3Level (p.T - 1) = s.optimalInitialLevel

/-- min_charging_rule (engine.py lines 237-244). -/
def min_charging_constraint (p : ModelParams) (s : Solution) : Prop :=
  ∀ t, t < p.T →
    p.minChargingThreshold * p.maxChargingPower * s.isChargingOn t ≤ s.chargingPower t

/-- max_charging_rule (engine.py lines 247-254). -/
def max_charging_constraint (p : ModelParams) (s : Solution) : Prop :=
  ∀ t, t < p.T → s.chargingPower t ≤ p.maxChargingPower * s.isChargingOn t

/-- min_discharging_rule (engine.py lines 257-264). -/
def min_discharging_constraint (p : ModelParams) (s : Solution) : Prop :=
  ∀ t, t < p.T →
    p.minDischargingThreshold * p.maxDischargingPower * s.isDischargingOn t ≤ s.dischargingPower t

/-- max_discharging_rule (engine.py lines 267-274). -/
def max_discharging_constraint (p : ModelParams) (s : Solution) : Prop :=
  ∀ t, t < p.T → s.dischargingPower t ≤ p.maxDischargingPower * s.isDischargingOn t

/-- no_simultaneous_operation_rule (engine.py lines 276-283). -/
def no_simultaneous_charge_discharge (p : ModelParams) (s : Solution) : Prop :=
  ∀ t, t < p.T → s.isChargingOn t + s.isDischargingOn t ≤ 1

/-- A variable assignment the solver may accept: the declared variable
domains together with every constraint of `create_optimization_model`. -/
def acceptedSolution (p : ModelParams) (s : Solution) : Prop :=
  varDomains p s ∧
  storage_capacity_constraint p s ∧
  initial_storage_constraint s ∧
  nh3_balance_constraint p s ∧
  cyclical_storage_constraint p s ∧
  min_charging_constraint p s ∧
  max_charging_constraint p s ∧
  min_discharging_constraint p s ∧
  max_discharging_constraint p s ∧
  no_simultaneous_charge_discharge p s

/-- operational_profit_rule (engine.py lines 167-179): the objective the
model maximizes. -/
def operationalProfit (p : ModelParams) (s : Solution) : ℚ :=
  ∑ t in Finset.range p.T,
    (p.price t * s.dischargingPower t * p.timestep -
     p.price t * s.chargingPower t * p.timestep)

/-- One row of the ledger built by `process_results`
(engine.py lines 378-418). -/
structure ResultRow where
  timeStep : ℕ
  price : ℚ
  chargingPowerMW : ℚ
  dischargingPowerMW : ℚ
  nh3LevelTonnes : ℚ
  nh3ProducedTonnes : ℚ
  nh3ConsumedTonnes : ℚ
  chargingCost : ℚ
  dischargingRevenue : ℚ
  netRevenue : ℚ
  isCharging : ℚ
  isDischarging : ℚ
  demandOut : ℚ
  windOut : ℚ
  curtailmentOut : ℚ
  carbonBasedFuelsOut : ℚ
  deriving DecidableEq

/-- The row `process_results` builds for timestep `t` from the solved
variable values (engine.py lines 378-418). -/
def resultRow (p : ModelParams) (s : Solution) (t : ℕ) : ResultRow :=
  let chargingPower := s.chargingPower t
  let dischargingPower := s.dischargingPower t
  let price := p.price t
  let chargingCost := chargingPower * p.timestep * price
  let dischargingRevenue := dischargingPower * p.timestep * price
  { timeStep := t
    price := price
    chargingPowerMW := chargingPower
    dischargingPowerMW := dischargingPower
    nh3LevelTonnes := s.nh3Level t
    nh3ProducedTonnes := chargingPower * p.timestep * p.chargingEfficiency * p.nh3ConversionFactor
    nh3ConsumedTonnes := dischargingPower * p.timestep * (1 / p.dischargingEfficiency) * p.nh3ConversionFactor
    chargingCost := chargingCost
    dischargingRevenue := dischargingRevenue
    netRevenue := dischargingRevenue - chargingCost
    isCharging := s.isChargingOn t
    isDischarging := s.isDischargingOn t
    demandOut := p.demand t
    windOut := p.wind t
    curtailmentOut := p.curtailment t
    carbonBasedFuelsOut := p.carbonBasedFuels t }

/-- Output of `process_results` (engine.py lines 352-456): the operational
ledger, the optimal design summary and the period economics.  The later
merge with `calculate_system_economics_with_optimal_storage` only adds
cost fields on top and is outside the claims. -/
structure ProcessedResults where
  operationalResults : List ResultRow
  optimalCapacityTonnes : ℚ
  optimalInitialLevelTonnes : ℚ
  periodOperationalProfit : ℚ
  periodHours : ℚ
  deriving DecidableEq

/-- process_results (engine.py lines 352-456): one ledger row per element
of DATETIME = `0..T-1`, total operational profit as the sum of the
Net_Revenue column, period hours as `len(results_df) * TIMESTEP`. -/
def processResults (p : ModelParams) (s : Solution) : ProcessedResults :=
  let rows := (List.range p.T).map (resultRow p s)
  { operationalResults := rows
    optimalCapacityTonnes := s.optimalCapacity
    optimalInitialLevelTonnes := s.optimalInitialLevel
    periodOperationalProfit := (rows.map ResultRow.netRevenue).sum
    periodHours := (rows.length : ℚ) * p.timestep }

/-- Solver status as reported by the Pyomo results object
(engine.py lines 478-488). -/
structure SolverOutcome where
  status : String
  terminationCondition : String

/-- Acceptance test of `optimize` (engine.py lines 482-484): status "ok"
and termination "optimal" or "feasible". -/
def solveSucceeded (r : SolverOutcome) : Bool :=
  r.status == "ok" &&
    (r.terminationCondition == "optimal" || r.terminationCondition == "feasible")

/-- optimize (engine.py lines 458-493), reduced to its contract: given the
solver outcome on the instance, either return `process_results` of the
solved values or the sentinel `None` (here `none`). -/
def optimize (r : SolverOutcome) (p : ModelParams) (s : Solution) :
    Option ProcessedResults :=
  if solveSucceeded r then some (processResults p s) else none

/-- State of an `IntegratedAmmoniaBatteryOptimizer` after `__init__`
(engine.py lines 17-64): the configured time interval, the capacities and
efficiencies read off the physical battery object, the threshold fractions
(both set to `0` in `__init__`) and the ammonia heating value `18.6`. -/
structure Optimizer where
  timeIntervalHours : ℚ
  p2aMaxCapacity : ℚ
  a2pMaxCapacity : ℚ
  storageMaxCapacity : ℚ
  chargingEfficiency : ℚ
  dischargingEfficiency : ℚ
  minChargingThreshold : ℚ
  minDischargingThreshold : ℚ
  lhvNH3 : ℚ

/-- Bounds declared on the OPTIMAL_NH3_CAPACITY variable. -/
structure CapacityVarBounds where
  lower : ℚ
  upper : ℚ
  deriving DecidableEq

/-- create_optimization_model's declaration of the storage design variable
(engine.py lines 113-118): `bounds=(0, 100000)` is a literal, written
without reference to the optimizer's configured `storage_capacity`. -/
def createOptimizationModelCapacityBounds (o : Optimizer) : CapacityVarBounds :=
  { lower := 0, upper := 100000 }

/-- Python `int()` applied to a float value, as in the resample frequency
string `f-string int(self.time_interval_hours)` (engine.py line 314):
truncation toward zero. -/
def pyInt (q : ℚ) : ℤ :=
  if 0 ≤ q then ⌊q⌋ else ⌈q⌉

/-- The input dataframe as `prepare_data` sees it: each column either
present (with one rational per row; DATETIME as hours on a common clock)
or absent.  `nrows` is the pandas row count `len(df)`. -/
structure DataFrame where
  nrows : ℕ
  datetimeCol : Option (List ℚ)
  priceCol : Option (List ℚ)
  demandCol : Option (List ℚ)
  windCol : Option (List ℚ)
  curtailmentCol : Option (List ℚ)
  carbonCol : Option (List ℚ)
  deriving DecidableEq

/-- Arithmetic mean of a list, as pandas `mean()` over one resample bin. -/
def listMean (xs : List ℚ) : ℚ :=
  xs.sum / (xs.length : ℚ)

/-- Resample bin of a timestamp for a whole-hour frequency: bins are
aligned at the epoch, as pandas `resample` aligns them. -/
def binOf (freqHours : ℤ) (t : ℚ) : ℤ :=
  ⌊t / (freqHours : ℚ)⌋

/-- The distinct bins hit by a timestamp column, in order (timestamps are
increasing, so bins are nondecreasing). -/
def binsOf (freqHours : ℤ) (dts : List ℚ) : List ℤ :=
  (dts.map (binOf freqHours)).dedup

/-- pandas `resample(freq).mean()` on one numeric column: group the rows
by bin of their timestamp and average each group. -/
def resampleColumn (freqHours : ℤ) (dts : List ℚ) (col : List ℚ) : List ℚ :=
  let pairs := dts.zip col
  (binsOf freqHours dts).map fun b =>
    listMean ((pairs.filter fun pr => binOf freqHours pr.1 == b).map Prod.snd)

/-- The resampled timestamp column: each bin's start time. -/
def resampleIndexCol (freqHours : ℤ) (dts : List ℚ) : List ℚ :=
  (binsOf freqHours dts).map fun b => (b : ℚ) * (freqHours : ℚ)

/-- Resampling step of `prepare_data` (engine.py lines 305-317).  If the
DATETIME column is absent the step is skipped entirely.  Otherwise the
original interval is `iloc[1] - iloc[0]`; when it differs from the
configured interval the frame is resampled at `f-string int(interval)H`
hours — a zero or negative frequency string is rejected by pandas
(ValueError), modelled as the error case. -/
def resampleStep (o : Optimizer) (df : DataFrame) : Except String DataFrame :=
  match df.datetimeCol with
  | none => Except.ok df
  | some dts =>
      if o.timeIntervalHours = dts.getD 1 0 - dts.getD 0 0 then Except.ok df
      else
        if pyInt o.timeIntervalHours ≤ 0 then
          Except.error "ValueError: invalid resample frequency"
        else
          Except.ok
            { nrows := (resampleIndexCol (pyInt o.timeIntervalHours) dts).length
              datetimeCol := some (resampleIndexCol (pyInt o.timeIntervalHours) dts)
              priceCol := df.priceCol.map (resampleColumn (pyInt o.timeIntervalHours) dts)
              demandCol := df.demandCol.map (resampleColumn (pyInt o.timeIntervalHours) dts)
              windCol := df.windCol.map (resampleColumn (pyInt o.timeIntervalHours) dts)
              curtailmentCol := df.curtailmentCol.map (resampleColumn (pyInt o.timeIntervalHours) dts)
              carbonCol := df.carbonCol.map (resampleColumn (pyInt o.timeIntervalHours) dts) }

/-- The helper `_get_timestep` (engine.py lines 495-497): it takes the
dataframe but returns the configured interval, reading nothing from it. -/
def get_timestep (o : Optimizer) (df : DataFrame) : ℚ :=
  o.timeIntervalHours

/-- Contents of the DataPortal returned by `prepare_data`
(engine.py lines 319-350). -/
structure PreparedData where
  timeIndices : List ℕ
  price : List ℚ
  demand : List ℚ
  wind : List ℚ
  curtailment : List ℚ
  carbonBasedFuels : List ℚ
  maximumChargingPower : ℚ
  maximumDischargingPower : ℚ
  chargingEfficiency : ℚ
  dischargingEfficiency : ℚ
  timestep : ℚ
  minChargingThreshold : ℚ
  minDischargingThreshold : ℚ
  lhvNH3 : ℚ
  nh3ConversionFactor : ℚ
  deriving DecidableEq

/-- Binding step of `prepare_data` (engine.py lines 319-350): the time
index is `0..len(df)-1`; the five series columns are read with plain
dataframe indexing, so an absent column raises KeyError (in column-access
order); the static parameters come from the optimizer state and
`NH3_CONVERSION_FACTOR = 3600 / (lhv_NH3 * 1000)`. -/
def bindData (o : Optimizer) (df : DataFrame) : Except String PreparedData :=
  match df.priceCol, df.demandCol, df.windCol, df.curtailmentCol, df.carbonCol with
  | some ps, some ds, some ws, some cs, some fs =>
      Except.ok
        { timeIndices := List.range df.nrows
          price := ps
          demand := ds
          wind := ws
          curtailment := cs
          carbonBasedFuels := fs
          maximumChargingPower := o.p2aMaxCapacity
          maximumDischargingPower := o.a2pMaxCapacity
          chargingEfficiency := o.chargingEfficiency
          dischargingEfficiency := o.dischargingEfficiency
          timestep := get_timestep o df
          minChargingThreshold := o.minChargingThreshold
          minDischargingThreshold := o.minDischargingThreshold
          lhvNH3 := o.lhvNH3
          nh3ConversionFactor := 3600 / (o.lhvNH3 * 1000) }
  | none, _, _, _, _ => Except.error "KeyError: PRICE"
  | _, none, _, _, _ => Except.error "KeyError: DEMAND"
  | _, _, none, _, _ => Except.error "KeyError: WIND"
  | _, _, _, none, _ => Except.error "KeyError: CURTAILMENT"
  | _, _, _, _, none => Except.error "KeyError: CARBON_BASED_FUELS"

/-- prepare_data (engine.py lines 287-350): resample if needed, then bind
the series and static parameters. -/
def prepareData (o : Optimizer) (df : DataFrame) : Except String PreparedData :=
  match resampleStep o df with
  | Except.error e => Except.error e
  | Except.ok df2 => bindData o df2

/-- Whether an Except value is the success case. -/
def isOkE {α : Type} (e : Except String α) : Bool :=
  match e with
  | Except.ok _ => true
  | Except.error _ => false

/-!
Embedding of `analysis/curtailment_analysis.py` (`analyze_curtailment_interactions`),
a pure function over the result ledger.  Each definition mirrors one local
of the Python function.
-/

/-- Is_Curtailment (curtailment_analysis.py line 12). -/
def isCurtailmentRow (r : ResultRow) : Bool :=
  decide (0 < r.curtailmentOut)

/-- Is_Battery_Charging (line 13). -/
def isBatteryChargingRow (r : ResultRow) : Bool :=
  decide (0 < r.chargingPowerMW)

/-- Is_Battery_Discharging (line 14). -/
def isBatteryDischargingRow (r : ResultRow) : Bool :=
  decide (0 < r.dischargingPowerMW)

/-- Is_Battery_Idle (line 15). -/
def isBatteryIdleRow (r : ResultRow) : Bool :=
  decide (r.chargingPowerMW = 0) && decide (r.dischargingPowerMW = 0)

/-- curtailment_periods (line 24). -/
def curtailmentPeriods (df : List ResultRow) : ℕ :=
  (df.filter isCurtailmentRow).length

/-- charging_during_curtailment_periods (lines 18, 25). -/
def chargingDuringCurtailmentPeriods (df : List ResultRow) : ℕ :=
  (df.filter fun r => isCurtailmentRow r && isBatteryChargingRow r).length

/-- discharging_during_curtailment_periods (lines 19, 26). -/
def dischargingDuringCurtailmentPeriods (df : List ResultRow) : ℕ :=
  (df.filter fun r => isCurtailmentRow r && isBatteryDischargingRow r).length

/-- idle_during_curtailment_periods (lines 20, 27). -/
def idleDuringCurtailmentPeriods (df : List ResultRow) : ℕ :=
  (df.filter fun r => isCurtailmentRow r && isBatteryIdleRow r).length

/-- total_curtailment_energy (line 39). -/
def totalCurtailmentEnergy (df : List ResultRow) (timestepHours : ℚ) : ℚ :=
  (df.map ResultRow.curtailmentOut).sum * timestepHours

/-- curtailment_during_charging (line 40). -/
def curtailmentDuringCharging (df : List ResultRow) (timestepHours : ℚ) : ℚ :=
  ((df.filter fun r => isCurtailmentRow r && isBatteryChargingRow r).map
    ResultRow.curtailmentOut).sum * timestepHours

/-- curtailment_during_discharging (line 41). -/
def curtailmentDuringDischarging (df : List ResultRow) (timestepHours : ℚ) : ℚ :=
  ((df.filter fun r => isCurtailmentRow r && isBatteryDischargingRow r).map
    ResultRow.curtailmentOut).sum * timestepHours

/-- battery_charging_energy_during_curtailment (line 44). -/
def batteryChargingEnergyDuringCurtailment (df : List ResultRow) (timestepHours : ℚ) : ℚ :=
  ((df.filter fun r => isCurtailmentRow r && isBatteryChargingRow r).map
    ResultRow.chargingPowerMW).sum * timestepHours

/-- battery_discharging_energy_during_curtailment (line 45). -/
def batteryDischargingEnergyDuringCurtailment (df : List ResultRow) (timestepHours : ℚ) : ℚ :=
  ((df.filter fun r => isCurtailmentRow r && isBatteryDischargingRow r).map
    ResultRow.dischargingPowerMW).sum * timestepHours

/-- pct_curtailment_periods_charging (line 35), guard included. -/
def pctCurtailmentPeriodsCharging (df : List ResultRow) : ℚ :=
  if 0 < curtailmentPeriods df then
    (chargingDuringCurtailmentPeriods df : ℚ) / (curtailmentPeriods df : ℚ) * 100
  else 0

/-- pct_curtailment_periods_discharging (line 36), guard included. -/
def pctCurtailmentPeriodsDischarging (df : List ResultRow) : ℚ :=
  if 0 < curtailmentPeriods df then
    (dischargingDuringCurtailmentPeriods df : ℚ) / (curtailmentPeriods df : ℚ) * 100
  else 0

/-- pct_curtailment_periods_idle (line 37), guard included. -/
def pctCurtailmentPeriodsIdle (df : List ResultRow) : ℚ :=
  if 0 < curtailmentPeriods df then
    (idleDuringCurtailmentPeriods df : ℚ) / (curtailmentPeriods df : ℚ) * 100
  else 0

/-- pct_curtailment_energy_during_charging (line 47), guard included. -/
def pctCurtailmentEnergyDuringCharging (df : List ResultRow) (ts : ℚ) : ℚ :=
  if 0 < totalCurtailmentEnergy df ts then
    curtailmentDuringCharging df ts / totalCurtailmentEnergy df ts * 100
  else 0

/-- pct_curtailment_energy_during_discharging (line 48), guard included. -/
def pctCurtailmentEnergyDuringDischarging (df : List ResultRow) (ts : ℚ) : ℚ :=
  if 0 < totalCurtailmentEnergy df ts then
    curtailmentDuringDischarging df ts / totalCurtailmentEnergy df ts * 100
  else 0

/-- curtailment_capture_efficiency (line 50), guard included. -/
def curtailmentCaptureEfficiency (df : List ResultRow) (ts : ℚ) : ℚ :=
  if 0 < curtailmentDuringCharging df ts then
    batteryChargingEnergyDuringCurtailment df ts / curtailmentDuringCharging df ts * 100
  else 0

/-- curtailment_capture_ratio entry of summary_metrics (line 57), guard
included. -/
def curtailmentCaptureShare (df : List ResultRow) (ts : ℚ) : ℚ :=
  if 0 < totalCurtailmentEnergy df ts then
    batteryChargingEnergyDuringCurtailment df ts / totalCurtailmentEnergy df ts
  else 0

/-- excess_energy_contribution_ratio entry of summary_metrics (line 57):
additional_excess_energy is battery_discharging_energy_during_curtailment
(line 51); guard included. -/
def excessEnergyContributionShare (df : List ResultRow) (ts : ℚ) : ℚ :=
  if 0 < totalCurtailmentEnergy df ts then
    batteryDischargingEnergyDuringCurtailment df ts / totalCurtailmentEnergy df ts
  else 0

/-- Result type of `calculate_levelized_cost` (economics/metrics.py lines
106-141): the zero-output guard returns the IEEE value `float('inf')`,
every other path a finite number. -/
inductive LCost where
  | inf : LCost
  | val : ℚ → LCost
  deriving DecidableEq

/-- calculate_levelized_cost (economics/metrics.py lines 106-141). -/
def calculate_levelized_cost (annual_output capital_cost annual_fixed_cost
    annual_variable_cost pv_replacement_costs : ℚ) (lifetime : ℕ)
    (discount_rate : ℚ) : LCost :=
  if annual_output = 0 then LCost.inf
  else
    let pvf := (1 - (1 + discount_rate) ^ (-(lifetime : ℤ))) / discount_rate
    let pv_total_costs := capital_cost +
      (annual_fixed_cost + annual_variable_cost) * pvf + pv_replacement_costs
    let pv_total_output := annual_output * pvf
    LCost.val (pv_total_costs / pv_total_output)

/-!
Concrete instances used by the witness theorems.
-/

/-- A one-step parameter set (half-hour steps, 100 MW either way,
efficiencies from a representative configuration, the analytic conversion
factor 3600/18600). -/
def pWitness : ModelParams :=
  { T := 1
    price := fun _ => 40
    demand := fun _ => 5
    wind := fun _ => 3
    curtailment := fun _ => 0
    carbonBasedFuels := fun _ => 2
    maxChargingPower := 100
    maxDischargingPower := 100
    minChargingThreshold := 0
    minDischargingThreshold := 0
    chargingEfficiency := 1/2
    dischargingEfficiency := 2/5
    timestep := 1/2
    lhvNH3 := 93/5
    nh3ConversionFactor := 6/31 }

/-- The idle solution: no charging, no discharging, empty store.  It
satisfies every constraint of the model on `pWitness`. -/
def sWitness : Solution :=
  { optimalCapacity := 50
    optimalInitialLevel := 0
    chargingPower := fun _ => 0
    dischargingPower := fun _ => 0
    nh3Level := fun _ => 0
    isChargingOn := fun _ => 0
    isDischargingOn := fun _ => 0
    chargingStarted := fun _ => 0
    chargingStopped := fun _ => 0 }

/-- An optimizer state with the default configuration's interval and
storage size. -/
def oWitness : Optimizer :=
  { timeIntervalHours := 1/2
    p2aMaxCapacity := 100
    a2pMaxCapacity := 100
    storageMaxCapacity := 100000
    chargingEfficiency := 1/2
    dischargingEfficiency := 2/5
    minChargingThreshold := 0
    minDischargingThreshold := 0
    lhvNH3 := 93/5 }

/-- The same optimizer state constructed with a tiny storage capacity. -/
def oWitnessSmallStore : Optimizer :=
  { oWitness with storageMaxCapacity := 5 }

/-- A two-row input frame sampled at the configured half-hour interval
with all six columns present. -/
def dfW10 : DataFrame :=
  { nrows := 2
    datetimeCol := some [0, 1/2]
    priceCol := some [10, 20]
    demandCol := some [1, 1]
    windCol := some [0, 0]
    curtailmentCol := some [0, 0]
    carbonCol := some [2, 2] }

/-- The DataPortal contents `prepare_data` produces from `dfW10` under
`oWitness`. -/
def pdW10 : PreparedData :=
  { timeIndices := [0, 1]
    price := [10, 20]
    demand := [1, 1]
    wind := [0, 0]
    curtailment := [0, 0]
    carbonBasedFuels := [2, 2]
    maximumChargingPower := 100
    maximumDischargingPower := 100
    chargingEfficiency := 1/2
    dischargingEfficiency := 2/5
    timestep := 1/2
    minChargingThreshold := 0
    minDischargingThreshold := 0
    lhvNH3 := 93/5
    nh3ConversionFactor := 6/31 }

/-- A three-row input frame sampled at one-hour intervals (all columns
present). -/
def dfHourly : DataFrame :=
  { nrows := 3
    datetimeCol := some [0, 1, 2]
    priceCol := some [10, 20, 30]
    demandCol := some [1, 2, 3]
    windCol := some [0, 0, 0]
    curtailmentCol := some [0, 0, 0]
    carbonCol := some [2, 2, 2] }

/-- A frame with every column except DATETIME. -/
def dfNoDatetime : DataFrame :=
  { nrows := 2
    datetimeCol := none
    priceCol := some [10, 20]
    demandCol := some [1, 1]
    windCol := some [0, 0]
    curtailmentCol := some [0, 0]
    carbonCol := some [2, 2] }

/-- A frame with the PRICE column missing. -/
def dfNoPrice : DataFrame :=
  { nrows := 2
    datetimeCol := none
    priceCol := none
    demandCol := some [1, 1]
    windCol := some [0, 0]
    curtailmentCol := some [0, 0]
    carbonCol := some [2, 2] }

/-- A ledger row whose period saw charging but no curtailment. -/
def rowNoCurtailment : ResultRow :=
  { timeStep := 0
    price := 50
    chargingPowerMW := 7
    dischargingPowerMW := 0
    nh3LevelTonnes := 1
    nh3ProducedTonnes := 1
    nh3ConsumedTonnes := 0
    chargingCost := 175
    dischargingRevenue := 0
    netRevenue := -175
    isCharging := 1
    isDischarging := 0
    demandOut := 5
    windOut := 3
    curtailmentOut := 0
    carbonBasedFuelsOut := 2 }

/-!
Theorems.
-/

/-- The idle solution is accepted by the model on `pWitness`. -/
lemma acceptedWitness : acceptedSolution pWitness sWitness := by
  unfold acceptedSolution varDomains storage_capacity_constraint initial_storage_constraint
    nh3_balance_constraint cyclical_storage_constraint min_charging_constraint
    max_charging_constraint min_discharging_constraint max_discharging_constraint
    no_simultaneous_charge_discharge chargeIn dischargeOut
  simp only [pWitness, sWitness]
  norm_num

/-- Claim C1: in every accepted solution the ammonia-balance constraint
holds at each timestep: at the first index the inventory equals the
optimized initial level plus the charge term minus the discharge term;
at every later index it equals the previous inventory plus the same
terms, with the charging efficiency multiplying and the discharging
efficiency dividing. -/
theorem c1_nh3_balance (p : ModelParams) (s : Solution)
    (h : acceptedSolution p s) :
    (0 < p.T →
      s.nh3Level 0 = s.optimalInitialLevel
        + s.chargingPower 0 * p.chargingEfficiency * p.timestep * p.nh3ConversionFactor
        - s.dischargingPower 0 * (1 / p.dischargingEfficiency) * p.timestep * p.nh3ConversionFactor) ∧
    (∀ t, 0 < t → t < p.T →
      s.nh3Level t = s.nh3Level (t - 1)
        + s.chargingPower t * p.chargingEfficiency * p.timestep * p.nh3ConversionFactor
        - s.dischargingPower t * (1 / p.dischargingEfficiency) * p.timestep * p.nh3ConversionFactor) := by
  obtain ⟨-, -, -, hbal, -⟩ := h
  constructor
  · intro hT
    have hb := hbal 0 hT
    simpa [chargeIn, dischargeOut] using hb
  · intro t ht hT
    have hb := hbal t hT
    rw [if_neg ht.ne'] at hb
    simpa [chargeIn, dischargeOut] using hb

/-- Witness for C1 at the concrete accepted instance. -/
theorem c1_nh3_balance_witness :
    sWitness.nh3Level 0 = sWitness.optimalInitialLevel
      + sWitness.chargingPower 0 * pWitness.chargingEfficiency * pWitness.timestep * pWitness.nh3ConversionFactor
      - sWitness.dischargingPower 0 * (1 / pWitness.dischargingEfficiency) * pWitness.timestep * pWitness.nh3ConversionFactor :=
  (c1_nh3_balance pWitness sWitness acceptedWitness).1 (by decide)

/-- Claim C2: in every accepted solution of a nonempty horizon the final
inventory equals the optimized initial level (cyclic closure), and the
optimized initial level is at most the optimized capacity. -/
theorem c2_cyclic_closure (p : ModelParams) (s : Solution)
    (h : acceptedSolution p s) (hT : 0 < p.T) :
    s.nh3Level (p.T - 1) = s.optimalInitialLevel ∧
    s.optimalInitialLevel ≤ s.optimalCapacity := by
  obtain ⟨-, -, hinit, -, hcyc, -⟩ := h
  exact ⟨hcyc, hinit⟩

/-- Witness for C2 at the concrete accepted instance. -/
theorem c2_cyclic_closure_witness :
    sWitness.nh3Level (pWitness.T - 1) = sWitness.optimalInitialLevel ∧
    sWitness.optimalInitialLevel ≤ sWitness.optimalCapacity :=
  c2_cyclic_closure pWitness sWitness acceptedWitness (by decide)

/-- Claim C3: in every accepted solution, per timestep: the two activity
flags sum to at most one (both zero allowed); each power is zero when its
flag is zero and at most the corresponding maximum times the flag; and
when a flag is one the power is at least threshold times maximum times
the flag. -/
theorem c3_flag_power_coupling (p : ModelParams) (s : Solution)
    (h : acceptedSolution p s) :
    ∀ t, t < p.T →
      s.isChargingOn t + s.isDischargingOn t ≤ 1 ∧
      (s.isChargingOn t = 0 → s.chargingPower t = 0) ∧
      s.chargingPower t ≤ p.maxChargingPower * s.isChargingOn t ∧
      (s.isDischargingOn t = 0 → s.dischargingPower t = 0) ∧
      s.dischargingPower t ≤ p.maxDischargingPower * s.isDischargingOn t ∧
      (s.isChargingOn t = 1 →
        p.minChargingThreshold * p.maxChargingPower * s.isChargingOn t ≤ s.chargingPower t) ∧
      (s.isDischargingOn t = 1 →
        p.minDischargingThreshold * p.maxDischargingPower * s.isDischargingOn t ≤ s.dischargingPower t) := by
  obtain ⟨⟨-, -, hcb, hdb, -⟩, -, -, -, -, hminc, hmaxc, hmind, hmaxd, hmux⟩ := h
  intro t ht
  refine ⟨hmux t ht, ?_, hmaxc t ht, ?_, hmaxd t ht, fun _ => hminc t ht, fun _ => hmind t ht⟩
  · intro hflag
    have h1 := hmaxc t ht
    rw [hflag, mul_zero] at h1
    exact le_antisymm h1 (hcb t ht).1
  · intro hflag
    have h1 := hmaxd t ht
    rw [hflag, mul_zero] at h1
    exact le_antisymm h1 (hdb t ht).1

/-- Witness for C3 at the concrete accepted instance. -/
theorem c3_flag_power_coupling_witness :
    sWitness.isChargingOn 0 + sWitness.isDischargingOn 0 ≤ 1 ∧
    sWitness.chargingPower 0 ≤ pWitness.maxChargingPower * sWitness.isChargingOn 0 := by
  have h := c3_flag_power_coupling pWitness sWitness acceptedWitness 0 (by decide)
  exact ⟨h.1, h.2.2.1⟩

/-- Claim C8: the storage-capacity design variable is declared with the
literal bounds `(0, 100000)` for every optimizer configuration — in
particular the bound does not change with the configured storage
capacity — and every accepted solution has a nonnegative capacity within
that bound and a nonnegative initial level. -/
theorem c8_capacity_variable_bounds (o o2 : Optimizer) (p : ModelParams)
    (s : Solution) (h : acceptedSolution p s) :
    (createOptimizationModelCapacityBounds o).upper = 100000 ∧
    (createOptimizationModelCapacityBounds o).lower = 0 ∧
    createOptimizationModelCapacityBounds o = createOptimizationModelCapacityBounds o2 ∧
    0 ≤ s.optimalCapacity ∧ s.optimalCapacity ≤ 100000 ∧
    0 ≤ s.optimalInitialLevel := by
  obtain ⟨⟨⟨hc0, hc1⟩, hi0, -⟩, -⟩ := h
  exact ⟨rfl, rfl, rfl, hc0, hc1, hi0⟩

/-- Witness for C8: two configurations that differ only in storage
capacity declare the same literal bounds, at the concrete instance. -/
theorem c8_capacity_variable_bounds_witness :
    createOptimizationModelCapacityBounds oWitness =
      createOptimizationModelCapacityBounds oWitnessSmallStore ∧
    sWitness.optimalCapacity ≤ 100000 := by
  have h := c8_capacity_variable_bounds oWitness oWitnessSmallStore pWitness sWitness acceptedWitness
  exact ⟨h.2.2.1, h.2.2.2.2.1⟩

/-- Sum of a function mapped over `List.range` as a `Finset.range` sum. -/
lemma list_range_map_sum (n : ℕ) (f : ℕ → ℚ) :
    ((List.range n).map f).sum = ∑ t in Finset.range n, f t := by
  induction n with
  | zero => simp
  | succ n ih => simp [List.range_succ, Finset.sum_range_succ, ih]

/-- Claim C4: for any solved values, the objective
(sum of price times discharge power times timestep minus price times
charge power times timestep) equals the sum of the Net_Revenue column of
the ledger `process_results` builds, where each row's Net_Revenue is
discharging revenue minus charging cost recomputed from the same values. -/
theorem c4_objective_equals_net_revenue_sum (p : ModelParams) (s : Solution) :
    operationalProfit p s =
      ((processResults p s).operationalResults.map ResultRow.netRevenue).sum := by
  unfold operationalProfit processResults
  simp only [List.map_map]
  rw [list_range_map_sum]
  refine Finset.sum_congr rfl fun t _ => ?_
  simp only [Function.comp, resultRow]
  ring

/-- Claim C5: `optimize` returns the sentinel `None` exactly when the
solver outcome is not status "ok" with termination "optimal" or
"feasible"; otherwise it returns the processed results of the solved
instance (so a failed solve yields no partial ledger). -/
theorem c5_solver_status_contract (r : SolverOutcome) (p : ModelParams)
    (s : Solution) :
    (optimize r p s = none ↔
      ¬ (r.status = "ok" ∧
         (r.terminationCondition = "optimal" ∨ r.terminationCondition = "feasible"))) ∧
    (r.status = "ok" ∧
       (r.terminationCondition = "optimal" ∨ r.terminationCondition = "feasible") →
      optimize r p s = some (processResults p s)) := by
  have hb : solveSucceeded r = true ↔
      (r.status = "ok" ∧
        (r.terminationCondition = "optimal" ∨ r.terminationCondition = "feasible")) := by
    simp [solveSucceeded, Bool.and_eq_true, Bool.or_eq_true, beq_iff_eq]
  refine ⟨⟨fun hnone hcnd => ?_, fun hcnd => ?_⟩, fun hcnd => ?_⟩
  · have hT := hb.mpr hcnd
    simp [optimize, hT] at hnone
  · have hF : solveSucceeded r = false := by
      cases hsc : solveSucceeded r
      · rfl
      · exact absurd (hb.mp hsc) hcnd
    simp [optimize, hF]
  · have hT := hb.mpr hcnd
    simp [optimize, hT]

/-- Witness for C5: a successful and a failed solver outcome, on the
concrete instance. -/
theorem c5_solver_status_contract_witness :
    optimize ⟨"ok", "optimal"⟩ pWitness sWitness =
      some (processResults pWitness sWitness) ∧
    optimize ⟨"aborted", "maxTimeLimit"⟩ pWitness sWitness = none := by
  constructor
  · exact (c5_solver_status_contract ⟨"ok", "optimal"⟩ pWitness sWitness).2
      (by simp)
  · exact (c5_solver_status_contract ⟨"aborted", "maxTimeLimit"⟩ pWitness sWitness).1.mpr
      (by simp)

/-- Claim C10: in every prepared data set the bound TIMESTEP equals the
configured time interval exactly: the helper ignores the dataframe, so
the value is the configured one whatever the input's actual sampling. -/
theorem c10_timestep_is_configured (o : Optimizer) (df df2 : DataFrame)
    (pd : PreparedData) (h : prepareData o df = Except.ok pd) :
    pd.timestep = o.timeIntervalHours ∧
    get_timestep o df2 = o.timeIntervalHours := by
  refine ⟨?_, rfl⟩
  unfold prepareData at h
  cases hres : resampleStep o df with
  | error e =>
      rw [hres] at h
      have h' : (Except.error e : Except String PreparedData) = Except.ok pd := h
      exact Except.noConfusion h'
  | ok dfr =>
      rw [hres] at h
      have h' : bindData o dfr = Except.ok pd := h
      unfold bindData at h'
      split at h'
      · injection h' with h2
        subst h2
        rfl
      · exact Except.noConfusion h'
      · exact Except.noConfusion h'
      · exact Except.noConfusion h'
      · exact Except.noConfusion h'
      · exact Except.noConfusion h'

/-- Witness for C10 at a concrete frame sampled at the configured
interval. -/
theorem c10_timestep_is_configured_witness :
    pdW10.timestep = oWitness.timeIntervalHours :=
  (c10_timestep_is_configured oWitness dfW10 dfW10 pdW10 (by
    norm_num [prepareData, resampleStep, bindData, dfW10, oWitness, pdW10,
      get_timestep, List.range_succ])).1

/-- Claim C6 evidence: with the default half-hour configured interval and
a one-hour-sampled input, resampling is attempted with the truncated
whole-hour frequency `int(0.5) = 0` instead of the 0.5-hour target, and
pandas rejects the zero frequency; the data never gets averaged over the
configured fractional interval. -/
theorem c6_fractional_resample_truncated :
    pyInt ((1 : ℚ)/2) = 0 ∧ ((1 : ℚ)/2) ≠ 0 ∧
    prepareData oWitness dfHourly =
      Except.error "ValueError: invalid resample frequency" := by
  refine ⟨by norm_num [pyInt], by norm_num, ?_⟩
  norm_num [prepareData, resampleStep, bindData, dfHourly, oWitness, pyInt]

/-- Counterexample to Claim C7: a frame with every column except DATETIME
binds successfully — the DATETIME access is guarded by a column-presence
test, so binding does succeed with a required column absent. -/
theorem c7_counterexample_missing_datetime_binds :
    isOkE (prepareData oWitness dfNoDatetime) = true := by
  rfl

/-- Resampling keeps an absent numeric column absent: the resampled frame
maps each column through `Option.map`. -/
lemma resampleStep_preserves_none (o : Optimizer) (df df2 : DataFrame)
    (h : resampleStep o df = Except.ok df2) :
    (df.priceCol = none → df2.priceCol = none) ∧
    (df.demandCol = none → df2.demandCol = none) ∧
    (df.windCol = none → df2.windCol = none) ∧
    (df.curtailmentCol = none → df2.curtailmentCol = none) ∧
    (df.carbonCol = none → df2.carbonCol = none) := by
  unfold resampleStep at h
  split at h
  · injection h with h2
    subst h2
    exact ⟨id, id, id, id, id⟩
  · split at h
    · injection h with h2
      subst h2
      exact ⟨id, id, id, id, id⟩
    · split at h
      · exact Except.noConfusion h
      · injection h with h2
        subst h2
        refine ⟨?_, ?_, ?_, ?_, ?_⟩ <;> (intro hn; simp [hn])

/-- The binding step fails when any of the five series columns is
absent. -/
lemma bindData_missing_column_fails (o : Optimizer) (df : DataFrame)
    (h : df.priceCol = none ∨ df.demandCol = none ∨ df.windCol = none ∨
         df.curtailmentCol = none ∨ df.carbonCol = none) :
    isOkE (bindData o df) = false := by
  unfold bindData
  rcases hp : df.priceCol with _ | ps <;>
    rcases hd : df.demandCol with _ | ds <;>
      rcases hw : df.windCol with _ | ws <;>
        rcases hc : df.curtailmentCol with _ | cs <;>
          rcases hf : df.carbonCol with _ | fs <;>
            simp_all [isOkE]

/-- Claim C7 as amended: binding fails whenever any of the five series
columns (PRICE, DEMAND, WIND, CURTAILMENT, CARBON_BASED_FUELS) is absent;
an absent DATETIME column is tolerated (resampling is skipped). -/
theorem c7_amended_missing_series_column_fails (o : Optimizer)
    (df : DataFrame)
    (h : df.priceCol = none ∨ df.demandCol = none ∨ df.windCol = none ∨
         df.curtailmentCol = none ∨ df.carbonCol = none) :
    isOkE (prepareData o df) = false := by
  unfold prepareData
  cases hres : resampleStep o df with
  | error e => rfl
  | ok df2 =>
      obtain ⟨k1, k2, k3, k4, k5⟩ := resampleStep_preserves_none o df df2 hres
      refine bindData_missing_column_fails o df2 ?_
      rcases h with h | h | h | h | h
      · exact Or.inl (k1 h)
      · exact Or.inr (Or.inl (k2 h))
      · exact Or.inr (Or.inr (Or.inl (k3 h)))
      · exact Or.inr (Or.inr (Or.inr (Or.inl (k4 h))))
      · exact Or.inr (Or.inr (Or.inr (Or.inr (k5 h))))

/-- Witness for amended C7: a frame with PRICE missing fails to bind. -/
theorem c7_amended_witness :
    isOkE (prepareData oWitness dfNoPrice) = false :=
  c7_amended_missing_series_column_fails oWitness dfNoPrice (Or.inl rfl)

/-- A list of nonnegative rationals with zero sum is all zeros. -/
lemma list_sum_nonneg_all_zero (l : List ℚ) (h0 : ∀ x ∈ l, 0 ≤ x)
    (hs : l.sum = 0) : ∀ x ∈ l, x = 0 := by
  induction l with
  | nil => intro x hx; exact absurd hx (List.not_mem_nil x)
  | cons a l ih =>
      intro x hx
      have ha : 0 ≤ a := h0 a (List.mem_cons_self a l)
      have hl0 : ∀ y ∈ l, 0 ≤ y := fun y hy => h0 y (List.mem_cons_of_mem a hy)
      have hlsum : 0 ≤ l.sum := List.sum_nonneg hl0
      have hsum : a + l.sum = 0 := by simpa using hs
      have ha0 : a = 0 := by linarith
      have hlz : l.sum = 0 := by linarith
      rcases List.mem_cons.mp hx with rfl | hx'
      · exact ha0
      · exact ih hl0 hlz x hx'

/-- Counterexample to Claim C9 as stated: with zero annual output,
`calculate_levelized_cost` resolves to the infinity sentinel, not to the
default 0. -/
theorem c9_counterexample_levelized_cost_inf :
    calculate_levelized_cost 0 1 0 0 0 25 (7/100) = LCost.inf ∧
    LCost.inf ≠ LCost.val 0 := by
  constructor
  · rfl
  · intro h
    exact LCost.noConfusion h

/-- Claim C9 as amended: over a ledger with nonnegative curtailment and a
positive timestep, when the count of curtailment periods or the total
curtailment energy is zero, every percentage and ratio output of
`analyze_curtailment_interactions` is 0; and `calculate_levelized_cost`
resolves a zero annual output to the defined sentinel `float('inf')`
rather than an undefined division (not to 0). -/
theorem c9_amended_degenerate_guards (df : List ResultRow) (ts : ℚ)
    (co fo vo po : ℚ) (lt : ℕ) (dr : ℚ)
    (hts : 0 < ts) (hnn : ∀ r ∈ df, 0 ≤ r.curtailmentOut)
    (hdeg : curtailmentPeriods df = 0 ∨ totalCurtailmentEnergy df ts = 0) :
    pctCurtailmentPeriodsCharging df = 0 ∧
    pctCurtailmentPeriodsDischarging df = 0 ∧
    pctCurtailmentPeriodsIdle df = 0 ∧
    pctCurtailmentEnergyDuringCharging df ts = 0 ∧
    pctCurtailmentEnergyDuringDischarging df ts = 0 ∧
    curtailmentCaptureEfficiency df ts = 0 ∧
    curtailmentCaptureShare df ts = 0 ∧
    excessEnergyContributionShare df ts = 0 ∧
    calculate_levelized_cost 0 co fo vo po lt dr = LCost.inf := by
  have hall : ∀ r ∈ df, r.curtailmentOut = 0 := by
    rcases hdeg with hcp | hte
    · have hnil : df.filter isCurtailmentRow = [] :=
        List.length_eq_zero.mp hcp
      have hnot := List.filter_eq_nil_iff.mp hnil
      intro r hr
      have hle : ¬ (0 < r.curtailmentOut) := by
        simpa [isCurtailmentRow] using hnot r hr
      exact le_antisymm (not_lt.mp hle) (hnn r hr)
    · have hsum : (df.map ResultRow.curtailmentOut).sum = 0 := by
        unfold totalCurtailmentEnergy at hte
        rcases mul_eq_zero.mp hte with h | h
        · exact h
        · exact absurd h (ne_of_gt hts)
      intro r hr
      refine list_sum_nonneg_all_zero _ ?_ hsum _ (List.mem_map_of_mem _ hr)
      intro x hxmem
      rcases List.mem_map.mp hxmem with ⟨q, hq, rfl⟩
      exact hnn q hq
  have hfil : df.filter isCurtailmentRow = [] :=
    List.filter_eq_nil_iff.mpr fun a ha => by
      simp [isCurtailmentRow, hall a ha]
  have hcp0 : curtailmentPeriods df = 0 := by
    simp [curtailmentPeriods, hfil]
  have htot0 : totalCurtailmentEnergy df ts = 0 := by
    unfold totalCurtailmentEnergy
    rw [List.sum_eq_zero, zero_mul]
    intro x hx
    rcases List.mem_map.mp hx with ⟨r, hr, rfl⟩
    exact hall r hr
  have hchfil : df.filter (fun r => isCurtailmentRow r && isBatteryChargingRow r) = [] :=
    List.filter_eq_nil_iff.mpr fun a ha => by
      simp [isCurtailmentRow, hall a ha]
  have hcdc0 : curtailmentDuringCharging df ts = 0 := by
    simp [curtailmentDuringCharging, hchfil]
  refine ⟨?_, ?_, ?_, ?_, ?_, ?_, ?_, ?_, ?_⟩
  · simp [pctCurtailmentPeriodsCharging, hcp0]
  · simp [pctCurtailmentPeriodsDischarging, hcp0]
  · simp [pctCurtailmentPeriodsIdle, hcp0]
  · simp [pctCurtailmentEnergyDuringCharging, htot0]
  · simp [pctCurtailmentEnergyDuringDischarging, htot0]
  · simp [curtailmentCaptureEfficiency, hcdc0]
  · simp [curtailmentCaptureShare, htot0]
  · simp [excessEnergyContributionShare, htot0]
  · rfl

/-- Witness for amended C9 on a one-row ledger with charging activity but
no curtailment. -/
theorem c9_amended_degenerate_guards_witness :
    pctCurtailmentPeriodsCharging [rowNoCurtailment] = 0 ∧
    curtailmentCaptureShare [rowNoCurtailment] (1/2) = 0 ∧
    calculate_levelized_cost 0 3 1 1 1 25 (7/100) = LCost.inf := by
  have h := c9_amended_degenerate_guards [rowNoCurtailment] (1/2) 3 1 1 1 25 (7/100)
    (by norm_num)
    (by intro r hr; rcases List.mem_singleton.mp hr with rfl; norm_num [rowNoCurtailment])
    (Or.inl (by norm_num [curtailmentPeriods, isCurtailmentRow, rowNoCurtailment]))
  exact ⟨h.1, h.2.2.2.2.2.2.1, h.2.2.2.2.2.2.2.2⟩
